import Mathlib

/-
Verification of the MPPI liquidity-rebalancing core of v4-kineticflow.

The development shallowly embeds the Python modules
`dashboard/optimizer/utils.py`, `dashboard/optimizer/cost_function.py`,
`dashboard/optimizer/controller.py` and `dashboard/optimizer/rebalancer.py`.
Floating-point scalars are modelled as real numbers; torch tensors over the
batch dimensions are modelled as functions out of `Fin`; the torch global
random-number generator is modelled as an explicit function of the seed and
a draw counter, threaded through the controller state.
-/

noncomputable section

namespace KineticFlow

/-- torch.clamp(x, lo, hi): `min(max(x, lo), hi)`. -/
def clampR (x lo hi : ℝ) : ℝ := min (max x lo) hi

/-- torch.relu(x) = max(x, 0). -/
def reluR (x : ℝ) : ℝ := max x 0

/-- Embeds `utils.price_to_tick`: `int(round(math.log(price) / math.log(1.0001)))`. -/
def price_to_tick (price : ℝ) : ℤ := round (Real.log price / Real.log 1.0001)

/-- Embeds `utils.tick_to_price`: `1.0001 ** tick`. -/
def tick_to_price (tick : ℤ) : ℝ := (1.0001 : ℝ) ^ tick

/-- Embeds `utils.clamp_ticks`: clamps lower first, then upper using the updated
lower bound, against `MIN_TICK, MAX_TICK = -887272, 887272`. -/
def clamp_ticks (tick_lower tick_upper : ℤ) : ℤ × ℤ :=
  let tl := max (-887272) (min tick_lower (tick_upper - 1))
  let tu := min 887272 (max tick_upper (tl + 1))
  (tl, tu)

/-- Embeds `utils.generate_constant_parameter_seq`: `torch.zeros(num_samples_expect,
horizon)` — every entry is the real number 0. -/
def generate_constant_parameter_seq (num_samples_expect horizon : ℕ) :
    Fin num_samples_expect → Fin horizon → ℝ :=
  fun _ _ => 0

/-- The 4-component state tensor `[t_market, t_pool, t_center, width_ticks]`
of `utils.uniswap_dynamics` / `cost_function.stage_cost`. -/
structure UniState where
  t_market : ℝ
  t_pool : ℝ
  t_center : ℝ
  width_ticks : ℝ

/-- The 2-component control `[delta_t_center, delta_width_ticks]`. -/
abbrev Act := ℝ × ℝ

/-- Embeds `utils.uniswap_dynamics`, one elementwise step. -/
def uniswap_dynamics (state : UniState) (action : Act) (params : ℝ) : UniState :=
  let delta_t_market := Real.log params / Real.log 1.0001
  let next_t_market := state.t_market + delta_t_market
  let next_t_center := state.t_center + action.1
  let next_w_ticks := max (state.width_ticks + action.2) 120.0
  let lower := next_t_center - next_w_ticks / 2
  let upper := next_t_center + next_w_ticks / 2
  let rel_dev := |next_t_market - state.t_pool| / max next_w_ticks 1e-6
  let k := 0.2 + 0.75 * Real.tanh (2.0 * rel_dev)
  let t_pool_raw := state.t_pool + k * (next_t_market - state.t_pool)
  let next_t_pool := clampR t_pool_raw lower upper
  ⟨next_t_market, next_t_pool, next_t_center, next_w_ticks⟩

/-- Embeds `cost_function.stage_cost`, one elementwise evaluation. -/
def stage_cost (state : UniState) (action : Act) : ℝ :=
  let lower := state.t_center - state.width_ticks / 2
  let upper := state.t_center + state.width_ticks / 2
  let fee_reward := if state.t_pool > lower ∧ state.t_pool < upper then -0.01 else 0
  let il_cost := 1e-5 * (state.t_market - state.t_pool) ^ 2
  let boundary_hit_cost :=
    if state.t_pool ≤ lower + 1 ∨ state.t_pool ≥ upper - 1 then 0.05 else 0
  let dist_to_edge := min (state.t_pool - lower) (upper - state.t_pool)
  let proximity := reluR (120.0 - dist_to_edge)
  let proximity_cost := 2e-5 * proximity * proximity
  let market_outside_dist :=
    if state.t_market < lower then lower - state.t_market else state.t_market - upper
  let market_outside_cost :=
    if state.t_market < lower ∨ state.t_market > upper then
      1e-4 * market_outside_dist * market_outside_dist
    else 0
  let rebalance_cost := if |action.1| + |action.2| > 60.0 then 0.005 else 0
  fee_reward + il_cost + boundary_hit_cost + proximity_cost
    + market_outside_cost + rebalance_cost

/-- Embeds `cost_function.terminal_cost`, one elementwise evaluation. -/
def terminal_cost (state : UniState) : ℝ :=
  1e-5 * (state.t_market - state.t_center) ^ 2 + 1e-4 * state.width_ticks

/-- Constructor parameters of `S_MPPI` (controller.py), at the concrete
`dim_state = 4`, `dim_control = 2` of `config_for_mppi.py` (the only
instantiation in the repository).  The injected callables — dynamics, the two
parameter-sequence generators, stage and terminal cost — are fields, exactly
as they are constructor arguments in the source.  The generators consume the
torch global RNG, modelled as a function of the seed and a draw counter. -/
structure SMPPIConfig where
  PROPOSE : Bool
  horizon : ℕ
  num_samples : ℕ
  num_samples_expect : ℕ
  dynamics : UniState → Act → ℝ → UniState
  gen_random_seq : ℕ → ℕ → Fin num_samples_expect → Fin horizon → ℝ
  gen_const_seq : ℕ → ℕ → Fin num_samples_expect → Fin horizon → ℝ
  stage : UniState → Act → ℝ
  terminal : UniState → ℝ
  u_min : Act
  u_max : Act
  sigmas : Act
  lambda_ : ℝ

/-- Mutable attributes of an `S_MPPI` instance: the stored mean control
sequence `_previous_action_seq` (the only persistent state the spec names),
the persistent `_state_seq_batch` buffer and `_weights` read by
`get_top_samples`, and the RNG position (seed plus draw counter). -/
structure SMPPIState (cfg : SMPPIConfig) where
  previous_action_seq : Fin cfg.horizon → Act
  state_seq_batch : Fin cfg.num_samples → Fin (cfg.horizon + 1) → UniState
  weights : Fin cfg.num_samples → ℝ
  seed : ℕ
  draw : ℕ

/-- The all-zero state used to initialize `_state_seq_batch`. -/
def zeroState : UniState := ⟨0, 0, 0, 0⟩

/-- Embeds `S_MPPI.__init__`: seeds the torch RNG with `seed` (the constructor's own
`rsample` consumes the first batch, so the draw counter starts at 1),
zero-initializes the mean sequence, the state-sequence buffer and the
weights. -/
def S_MPPI.init (cfg : SMPPIConfig) (seed : ℕ) : SMPPIState cfg where
  previous_action_seq := fun _ => (0, 0)
  state_seq_batch := fun _ _ => zeroState
  weights := fun _ => 0
  seed := seed
  draw := 1

/-- Elementwise `torch.clamp(a, u_min, u_max)` on a 2-component action. -/
def clampAct (a lo hi : Act) : Act := (clampR a.1 lo.1 hi.1, clampR a.2 lo.2 hi.2)

/-- Embeds `_perturbed_action_seqs`: mean sequence plus noise, clamped elementwise
to `[u_min, u_max]`. -/
def perturbedSeqs (cfg : SMPPIConfig) (mean : Fin cfg.horizon → Act)
    (noises : Fin cfg.num_samples → Fin cfg.horizon → Act) :
    Fin cfg.num_samples → Fin cfg.horizon → Act :=
  fun i t => clampAct (mean t + noises i t) cfg.u_min cfg.u_max

/-- The rollout `self._state_seq_batch_exp[:, :, t, :]` for one
(sample, expectation-sample) pair: state after `t` dynamics steps from `s`. -/
def rolloutSt (cfg : SMPPIConfig) (s : UniState) (acts : Fin cfg.horizon → Act)
    (prms : Fin cfg.horizon → ℝ) : ℕ → UniState
  | 0 => s
  | t + 1 =>
    if ht : t < cfg.horizon then
      cfg.dynamics (rolloutSt cfg s acts prms t) (acts ⟨t, ht⟩) (prms ⟨t, ht⟩)
    else rolloutSt cfg s acts prms t

/-- One entry of `action_costs_exp`:
`mean_action_seq[t] @ inv(diag(sigmas^2)) @ perturbed_action[t]`. -/
def actionCost (sigmas m p : Act) : ℝ :=
  m.1 * p.1 / sigmas.1 ^ 2 + m.2 * p.2 / sigmas.2 ^ 2

/-- Total cost per outer sample: stage, terminal and `lambda_`-scaled action
costs, each Monte-Carlo averaged over the `num_samples_expect` dimension. -/
def totalCost (cfg : SMPPIConfig) (mean : Fin cfg.horizon → Act)
    (noises : Fin cfg.num_samples → Fin cfg.horizon → Act)
    (prms : Fin cfg.num_samples_expect → Fin cfg.horizon → ℝ)
    (s : UniState) : Fin cfg.num_samples → ℝ :=
  fun i =>
    let pert := perturbedSeqs cfg mean noises
    let traj : Fin cfg.num_samples_expect → ℕ → UniState :=
      fun j => rolloutSt cfg s (pert i) (prms j)
    (∑ t : Fin cfg.horizon,
        (∑ j : Fin cfg.num_samples_expect, cfg.stage (traj j t.val) (pert i t)) /
          (cfg.num_samples_expect : ℝ))
      + (∑ j : Fin cfg.num_samples_expect, cfg.terminal (traj j cfg.horizon)) /
          (cfg.num_samples_expect : ℝ)
      + cfg.lambda_ *
          ∑ t : Fin cfg.horizon,
            (∑ _j : Fin cfg.num_samples_expect, actionCost cfg.sigmas (mean t) (pert i t)) /
              (cfg.num_samples_expect : ℝ)

/-- Embeds `torch.softmax(-costs / lambda_, dim=0)`. -/
def mppiWeights (cfg : SMPPIConfig) (mean : Fin cfg.horizon → Act)
    (noises : Fin cfg.num_samples → Fin cfg.horizon → Act)
    (prms : Fin cfg.num_samples_expect → Fin cfg.horizon → ℝ)
    (s : UniState) : Fin cfg.num_samples → ℝ :=
  fun i =>
    Real.exp (-totalCost cfg mean noises prms s i / cfg.lambda_) /
      ∑ k : Fin cfg.num_samples, Real.exp (-totalCost cfg mean noises prms s k / cfg.lambda_)

/-- The weighted-average optimal control sequence (before hysteresis). -/
def optimalSeq (cfg : SMPPIConfig) (mean : Fin cfg.horizon → Act)
    (noises : Fin cfg.num_samples → Fin cfg.horizon → Act)
    (prms : Fin cfg.num_samples_expect → Fin cfg.horizon → ℝ)
    (s : UniState) : Fin cfg.horizon → Act :=
  fun t =>
    (∑ i : Fin cfg.num_samples,
        mppiWeights cfg mean noises prms s i * (perturbedSeqs cfg mean noises i t).1,
     ∑ i : Fin cfg.num_samples,
        mppiWeights cfg mean noises prms s i * (perturbedSeqs cfg mean noises i t).2)

/-- The hysteresis / deadband applied to `optimal_action_seq[0]`:
zero `delta_center` when `|delta_center| < 60`, zero `delta_width` when
`|delta_width| < 120`, each independently. -/
def deadband (a : Act) : Act :=
  (if |a.1| < (60 : ℝ) then 0 else a.1, if |a.2| < (120 : ℝ) then 0 else a.2)

/-- Embeds `optimal_action_seq[0]` (for `horizon = 0` the Python indexing would
raise; every claim concerns `horizon ≥ 1`). -/
def headAct (cfg : SMPPIConfig) (seq : Fin cfg.horizon → Act) : Act :=
  if hh : 0 < cfg.horizon then seq ⟨0, hh⟩ else (0, 0)

/-- Result of one `forward` call: the returned pair plus the post-call
attribute values. -/
structure ForwardOut (cfg : SMPPIConfig) where
  current_action : Act
  optimal_action_seq : Fin cfg.horizon → Act
  next : SMPPIState cfg

/-- Body of `S_MPPI.forward` after the shape assertion, as a function of the
drawn noise batch and the drawn parameter batch.  Note the aliasing in the
source: `current_action = optimal_action_seq[0]` is a view, so the in-place
deadband writes reach both the returned sequence and the stored
`_previous_action_seq` (they are the same tensor); `forward` writes only
column 0 of the persistent `_state_seq_batch` buffer — the rollout goes to
the freshly copied `_state_seq_batch_exp`. -/
def forwardCore (cfg : SMPPIConfig) (c : SMPPIState cfg)
    (noises : Fin cfg.num_samples → Fin cfg.horizon → Act)
    (prms : Fin cfg.num_samples_expect → Fin cfg.horizon → ℝ)
    (s : UniState) : ForwardOut cfg :=
  let mean := c.previous_action_seq
  let w := mppiWeights cfg mean noises prms s
  let opt := optimalSeq cfg mean noises prms s
  let db := deadband (headAct cfg opt)
  let seqAfter : Fin cfg.horizon → Act := fun t => if t.val = 0 then db else opt t
  { current_action := db
    optimal_action_seq := seqAfter
    next :=
      { previous_action_seq := seqAfter
        state_seq_batch := fun i t => if t.val = 0 then s else c.state_seq_batch i t
        weights := w
        seed := c.seed
        draw := c.draw + 2 } }

/-- The parameter-sequence batch drawn in `forward`: the stochastic generator
when `PROPOSE`, else the constant generator. -/
def chosenParams (cfg : SMPPIConfig) (seed d : ℕ) :
    Fin cfg.num_samples_expect → Fin cfg.horizon → ℝ :=
  if cfg.PROPOSE then cfg.gen_random_seq seed d else cfg.gen_const_seq seed d

/-- Unpack a length-4 state list into the 4-component state. -/
def stFromList (st : List ℝ) (h : st.length = 4) : UniState :=
  ⟨st.get ⟨0, by omega⟩, st.get ⟨1, by omega⟩, st.get ⟨2, by omega⟩,
   st.get ⟨3, by omega⟩⟩

/-- Embeds `S_MPPI.forward`.  `noiseF` is the seeded torch RNG stream delivering the
`rsample` noise batch at the controller's current draw position.  The leading
`assert state.shape == (dim_state,)` is the only input check in the source
and is modelled by the `Option` guard; the body performs no further
validation of the state's values. -/
def S_MPPI.forward (cfg : SMPPIConfig)
    (noiseF : ℕ → ℕ → Fin cfg.num_samples → Fin cfg.horizon → Act)
    (c : SMPPIState cfg) (st : List ℝ) : Option (ForwardOut cfg) :=
  if h : st.length = 4 then
    some (forwardCore cfg c (noiseF c.seed c.draw)
      (chosenParams cfg c.seed (c.draw + 1)) (stFromList st h))
  else none

/-- Stable insertion, keeping the list ordered by descending key `w`. -/
def insertDesc {α : Type} (w : α → ℝ) (a : α) : List α → List α
  | [] => [a]
  | b :: bs => if w b < w a then a :: b :: bs else b :: insertDesc w a bs

/-- Stable sort by descending key `w` (models the ordering produced by
`torch.topk` / `torch.argsort(..., descending=True)`). -/
def sortDesc {α : Type} (w : α → ℝ) : List α → List α
  | [] => []
  | a :: as => insertDesc w a (sortDesc w as)

/-- Embeds `S_MPPI.get_top_samples`: `torch.topk` picks the indices of the `k`
largest stored weights in descending order; the rows of the persistent
`_state_seq_batch` buffer and the weights are gathered at those indices and
re-sorted by descending weight.  The source's `assert num_samples <=
self._num_samples` is a precondition; the definition is meant under it. -/
def S_MPPI.get_top_samples (cfg : SMPPIConfig) (c : SMPPIState cfg) (k : ℕ) :
    List (Fin (cfg.horizon + 1) → UniState) × List ℝ :=
  let top := (sortDesc c.weights (List.finRange cfg.num_samples)).take k
  let resorted := sortDesc c.weights top
  (resorted.map fun i => c.state_seq_batch i, resorted.map fun i => c.weights i)

/-- Embeds `MPPIRebalancer._truncate_tick`: `(tick // tick_spacing) * tick_spacing`
with Python floor division. -/
def truncate_tick (tick tick_spacing : ℤ) : ℤ :=
  Int.fdiv tick tick_spacing * tick_spacing

/-- The state tensor assembled by `MPPIRebalancer.compute_action` and handed
to `self.controller.forward`: raw prices and a price-unit center/width. -/
def compute_action_state (external_price pool_price : ℝ)
    (tick_lower tick_upper : ℤ) : UniState :=
  let price_lower := tick_to_price tick_lower
  let price_upper := tick_to_price tick_upper
  ⟨external_price, pool_price, (price_lower + price_upper) / 2,
   max 0.01 (price_upper - price_lower)⟩

/-- Modelled from the spec (§4.5): the state assembly in tick units,
`[price_to_tick(external_price), price_to_tick(pool_price),
(tick_lower + tick_upper)/2, tick_upper - tick_lower]`, stated for
comparison with `compute_action_state`, which is what `rebalancer.py`
actually builds. -/
def spec_state_vector (external_price pool_price : ℝ)
    (tick_lower tick_upper : ℤ) : UniState :=
  ⟨(price_to_tick external_price : ℤ), (price_to_tick pool_price : ℤ),
   ((tick_lower : ℝ) + (tick_upper : ℝ)) / 2, (tick_upper : ℝ) - (tick_lower : ℝ)⟩

/-- Embeds `MPPIRebalancer.compute_target_range`.  The immediate controller action
`(delta_center, delta_width)` — produced in the source by
`self.compute_action`, i.e. by `S_MPPI.forward` under the live RNG — is the
explicit argument `act`; everything after that call is embedded verbatim. -/
def compute_target_range (tick_lower tick_upper tick_spacing : ℤ) (act : Act) :
    ℤ × ℤ :=
  let price_lower := tick_to_price tick_lower
  let price_upper := tick_to_price tick_upper
  let current_center := (price_lower + price_upper) / 2
  let current_width := max 0.01 (price_upper - price_lower)
  let new_center := current_center + act.1
  let new_width := max 0.01 (current_width + act.2)
  let lower_price := new_center - new_width / 2
  let upper_price := new_center + new_width / 2
  let tl := price_to_tick lower_price
  let tu := price_to_tick upper_price
  let p := clamp_ticks tl tu
  let tl2 := truncate_tick p.1 tick_spacing
  let tu2 := truncate_tick p.2 tick_spacing
  if tl2 ≥ tu2 then (tl2, tl2 + tick_spacing) else (tl2, tu2)

/-- The first action of the weighted-average optimal sequence computed by a
`forward` call on state list `st` (before the hysteresis). -/
def forwardOptimalHead (cfg : SMPPIConfig)
    (noiseF : ℕ → ℕ → Fin cfg.num_samples → Fin cfg.horizon → Act)
    (c : SMPPIState cfg) (st : List ℝ) (h4 : st.length = 4)
    (hh : 0 < cfg.horizon) : Act :=
  optimalSeq cfg c.previous_action_seq (noiseF c.seed c.draw)
    (chosenParams cfg c.seed (c.draw + 1)) (stFromList st h4) ⟨0, hh⟩

/-- A minimal `S_MPPI` instantiation: one outer sample, one expectation
sample, horizon 1, the repository's dynamics and cost callables, and the
tick-space bounds/sigmas of `config_for_mppi.py`.  The jump-diffusion
generator's RNG stream is modelled as constantly yielding the neutral
factor 1. -/
abbrev oneSampleConfig : SMPPIConfig :=
  { PROPOSE := true
    horizon := 1
    num_samples := 1
    num_samples_expect := 1
    dynamics := uniswap_dynamics
    gen_random_seq := fun _ _ _ _ => 1
    gen_const_seq := fun _ _ => generate_constant_parameter_seq 1 1
    stage := stage_cost
    terminal := terminal_cost
    u_min := (-600, -1200)
    u_max := (600, 1200)
    sigmas := (120, 240)
    lambda_ := 1 }

/-- An RNG stream whose noise draw is constantly `(30, 300)`. -/
abbrev noiseC5 : ℕ → ℕ → Fin oneSampleConfig.num_samples →
    Fin oneSampleConfig.horizon → Act :=
  fun _ _ _ _ => (30, 300)

/-- An RNG stream whose noise draw is constantly `(30, 100)`. -/
abbrev noiseC8 : ℕ → ℕ → Fin oneSampleConfig.num_samples →
    Fin oneSampleConfig.horizon → Act :=
  fun _ _ _ _ => (30, 100)

/-- An RNG stream whose noise draw is constantly `(0, 0)`. -/
abbrev noiseZero : ℕ → ℕ → Fin oneSampleConfig.num_samples →
    Fin oneSampleConfig.horizon → Act :=
  fun _ _ _ _ => (0, 0)

/-- The spec's equilibrium state `[1000, 1000, 1000, 4000]` as a state list. -/
abbrev st0 : List ℝ := [1000, 1000, 1000, 4000]

/-! ### Basic facts about the tick base 1.0001 -/

lemma one_lt_base : (1 : ℝ) < 1.0001 := by norm_num

lemma log_base_pos : 0 < Real.log 1.0001 := Real.log_pos one_lt_base

lemma log_base_ne : Real.log 1.0001 ≠ 0 := ne_of_gt log_base_pos

/-- Round trip: converting an integer tick to a price and back recovers it. -/
lemma price_to_tick_tick_to_price (n : ℤ) : price_to_tick (tick_to_price n) = n := by
  unfold price_to_tick tick_to_price
  rw [Real.log_zpow, mul_div_cancel_right₀ _ log_base_ne, round_intCast]

/-- With a zero immediate action and a current range at least `0.01` wide in
price units, `compute_target_range` reduces to the integer pipeline
clamp → truncate → degenerate-range guard on the original bounds (the price
round trip is exact). -/
lemma compute_target_range_zero_act (tl tu spacing : ℤ)
    (h : 0.01 ≤ tick_to_price tu - tick_to_price tl) :
    compute_target_range tl tu spacing (0, 0) =
      (if truncate_tick (clamp_ticks tl tu).1 spacing ≥
          truncate_tick (clamp_ticks tl tu).2 spacing then
        (truncate_tick (clamp_ticks tl tu).1 spacing,
         truncate_tick (clamp_ticks tl tu).1 spacing + spacing)
      else
        (truncate_tick (clamp_ticks tl tu).1 spacing,
         truncate_tick (clamp_ticks tl tu).2 spacing)) := by
  have hcw : max 0.01 (tick_to_price tu - tick_to_price tl) =
      tick_to_price tu - tick_to_price tl := max_eq_right h
  have hlp : (tick_to_price tl + tick_to_price tu) / 2 -
      (tick_to_price tu - tick_to_price tl) / 2 = tick_to_price tl := by ring
  have hup : (tick_to_price tl + tick_to_price tu) / 2 +
      (tick_to_price tu - tick_to_price tl) / 2 = tick_to_price tu := by ring
  simp only [compute_target_range, hcw, add_zero, hlp, hup,
    price_to_tick_tick_to_price]

/-- Bernoulli-style lower bound used for the C6 counterexample input. -/
lemma base_pow_ge : (100 : ℝ) ≤ (1.0001 : ℝ) ^ (887271 : ℕ) := by
  have h2 : (2 : ℝ) ≤ (1.0001 : ℝ) ^ (10000 : ℕ) := by
    have h := one_add_mul_le_pow (by norm_num : (-2 : ℝ) ≤ 0.0001) 10000
    norm_num at h
    convert h using 2
    norm_num
  have hA : (2 : ℝ) ^ (88 : ℕ) ≤ ((1.0001 : ℝ) ^ (10000 : ℕ)) ^ (88 : ℕ) :=
    pow_le_pow_left₀ (by norm_num) h2 88
  have hB : (1 : ℝ) ≤ (1.0001 : ℝ) ^ (7271 : ℕ) := one_le_pow₀ (by norm_num)
  have hsplit : (1.0001 : ℝ) ^ (887271 : ℕ) =
      ((1.0001 : ℝ) ^ (10000 : ℕ)) ^ (88 : ℕ) * (1.0001 : ℝ) ^ (7271 : ℕ) := by
    rw [← pow_mul, ← pow_add]
  rw [hsplit]
  have hmul : (2 : ℝ) ^ (88 : ℕ) * 1 ≤
      ((1.0001 : ℝ) ^ (10000 : ℕ)) ^ (88 : ℕ) * (1.0001 : ℝ) ^ (7271 : ℕ) :=
    mul_le_mul hA hB (by norm_num) (le_trans (by positivity) hA)
  calc (100 : ℝ) ≤ (2 : ℝ) ^ (88 : ℕ) * 1 := by norm_num
    _ ≤ _ := hmul

/-- The price-unit width of the tick range `[887271, 887272]` is above the
`0.01` floor. -/
lemma width_887271_ge : (0.01 : ℝ) ≤ tick_to_price 887272 - tick_to_price 887271 := by
  have hne : (1.0001 : ℝ) ≠ 0 := by norm_num
  have hsplit : tick_to_price 887272 = tick_to_price 887271 * 1.0001 := by
    unfold tick_to_price
    rw [show (887272 : ℤ) = 887271 + 1 by norm_num, zpow_add_one₀ hne]
  have hnat : tick_to_price 887271 = (1.0001 : ℝ) ^ (887271 : ℕ) := by
    unfold tick_to_price
    rw [show (887271 : ℤ) = ((887271 : ℕ) : ℤ) by norm_num, zpow_natCast]
  have h100 : (100 : ℝ) ≤ tick_to_price 887271 := by rw [hnat]; exact base_pow_ge
  have hd : tick_to_price 887272 - tick_to_price 887271 =
      tick_to_price 887271 * 0.0001 := by rw [hsplit]; ring
  rw [hd]
  calc (0.01 : ℝ) = 100 * 0.0001 := by norm_num
    _ ≤ tick_to_price 887271 * 0.0001 :=
        mul_le_mul_of_nonneg_right h100 (by norm_num)

/-! ### Claims -/

/-- C1: the state vector `MPPIRebalancer.compute_action` hands to the
controller is built from raw prices, not ticks.  At
`external_price = pool_price = 1.0001^60`, `tick_lower = 0`,
`tick_upper = 60`, the claim prescribes
`t_market = price_to_tick(1.0001^60) = 60`, but the assembled first
component is the price `1.0001^60 < 2` itself, and the assembled center is
`(1.0001^0 + 1.0001^60)/2 < 2`, not `(0 + 60)/2 = 30`. -/
theorem C1_compute_action_state_is_price_space :
    (compute_action_state (tick_to_price 60) (tick_to_price 60) 0 60).t_market =
      tick_to_price 60 ∧
    (spec_state_vector (tick_to_price 60) (tick_to_price 60) 0 60).t_market = 60 ∧
    (compute_action_state (tick_to_price 60) (tick_to_price 60) 0 60).t_market ≠
      (spec_state_vector (tick_to_price 60) (tick_to_price 60) 0 60).t_market ∧
    (compute_action_state (tick_to_price 60) (tick_to_price 60) 0 60).t_center ≠
      (spec_state_vector (tick_to_price 60) (tick_to_price 60) 0 60).t_center := by
  have hlt : tick_to_price 60 < 2 := by
    unfold tick_to_price
    rw [show (60 : ℤ) = ((60 : ℕ) : ℤ) by norm_num, zpow_natCast]
    norm_num
  have hpos : 0 < tick_to_price 60 := by
    unfold tick_to_price
    positivity
  have hm : (spec_state_vector (tick_to_price 60) (tick_to_price 60) 0 60).t_market
      = 60 := by
    simp only [spec_state_vector, price_to_tick_tick_to_price]
    norm_num
  refine ⟨rfl, hm, ?_, ?_⟩
  · rw [hm]
    show tick_to_price 60 ≠ 60
    intro hcontra
    rw [hcontra] at hlt
    norm_num at hlt
  · have hc : (spec_state_vector (tick_to_price 60) (tick_to_price 60) 0 60).t_center
        = 30 := by
      simp only [spec_state_vector]
      norm_num
    rw [hc]
    show (tick_to_price 0 + tick_to_price 60) / 2 ≠ 30
    have h0 : tick_to_price 0 = 1 := by
      unfold tick_to_price
      norm_num
    rw [h0]
    intro hcontra
    have : tick_to_price 60 = 59 := by linarith
    rw [this] at hlt
    norm_num at hlt

/-- C2: the constant-parameter generator is `torch.zeros`, so every entry of
the returned matrix is the multiplicative price factor `0`, not `1` as the
claim states (a factor of `0` is not even a valid input to the dynamics,
whose documented contract requires a strictly positive factor). -/
theorem C2_constant_generator_returns_zero :
    (∀ (n h : ℕ) (i : Fin n) (j : Fin h), generate_constant_parameter_seq n h i j = 0) ∧
    (0 : ℝ) ≠ 1 :=
  ⟨fun _ _ _ _ => rfl, by norm_num⟩

/-- C6: on current bounds `tick_lower = 887271, tick_upper = 887272`
(protocol-valid), `tick_spacing = 60`, and the immediate controller action
`(0, 0)` (the usual deadband outcome), `compute_target_range` returns
`(887220, 887280)`: the upper bound `887280` lies outside the protocol-valid
range `[-887272, 887272]`.  Truncation toward `-∞` and the degenerate-range
guard run after the clamp, so the claimed postcondition fails. -/
theorem C6_target_range_exceeds_protocol_bound :
    compute_target_range 887271 887272 60 (0, 0) = (887220, 887280) ∧
    ¬(887280 : ℤ) ≤ 887272 := by
  constructor
  · rw [compute_target_range_zero_act 887271 887272 60 width_887271_ge]
    decide
  · decide

/-- C3 counterexample: at state `[t_market, t_pool, t_center, width_ticks] =
[100, 0, 0, 1000]` and action `[0, 0]`, the bounds are `lower = -500`,
`upper = 500`; of the claim's terms only the fee reward (`-0.01`, since
`t_pool = 0` is strictly inside) and the tracking term (`5e-5 * (100-0)^2`)
are nonzero, so the claim predicts a stage cost of `0.49`.  The source's
tracking coefficient is `1e-5`, giving `0.09`. -/
theorem C3_stage_cost_claim_cex :
    stage_cost ⟨100, 0, 0, 1000⟩ (0, 0) ≠ -0.01 + 5e-5 * ((100 : ℝ) - 0) ^ 2 := by
  have h : stage_cost ⟨100, 0, 0, 1000⟩ (0, 0) = 0.09 := by
    simp only [stage_cost, reluR]
    rw [if_pos (by norm_num), if_neg (by norm_num), if_neg (by norm_num),
      if_neg (by norm_num)]
    have h1 : min ((0 : ℝ) - (0 - 1000 / 2)) (0 + 1000 / 2 - 0) = 500 := by norm_num
    rw [h1]
    norm_num
  rw [h]; norm_num

/-- C3 (amended): with `lower/upper = t_center ∓ width_ticks/2`, the stage
cost is the sum of: `-0.01` if `t_pool` is strictly inside `(lower, upper)`
else `0`; `1e-5*(t_market - t_pool)^2`; `0.05` if `t_pool ≤ lower + 1` or
`t_pool ≥ upper - 1` (within 1 tick of an edge or beyond it) else `0`;
`2e-5*relu(120 - dist_to_nearest_edge)^2`; `1e-4*distance^2` when `t_market`
is outside `[lower, upper]` else `0`; and a fixed `0.005` exactly when
`|delta_center| + |delta_width|` exceeds `60` ticks.  The terminal cost is
`1e-5*(t_market - t_center)^2 + 1e-4*width_ticks`. -/
theorem C3_cost_model_characterization (s : UniState) (a : Act) :
    stage_cost s a =
      (if s.t_center - s.width_ticks / 2 < s.t_pool ∧
          s.t_pool < s.t_center + s.width_ticks / 2 then -0.01 else 0)
        + 1e-5 * (s.t_market - s.t_pool) ^ 2
        + (if s.t_pool ≤ s.t_center - s.width_ticks / 2 + 1 ∨
              s.t_center + s.width_ticks / 2 - 1 ≤ s.t_pool then 0.05 else 0)
        + 2e-5 *
            reluR (120 - min (s.t_pool - (s.t_center - s.width_ticks / 2))
              (s.t_center + s.width_ticks / 2 - s.t_pool)) ^ 2
        + (if s.t_market < s.t_center - s.width_ticks / 2 ∨
              s.t_center + s.width_ticks / 2 < s.t_market then
            1e-4 *
              (if s.t_market < s.t_center - s.width_ticks / 2 then
                s.t_center - s.width_ticks / 2 - s.t_market
              else s.t_market - (s.t_center + s.width_ticks / 2)) ^ 2
          else 0)
        + (if 60 < |a.1| + |a.2| then 0.005 else 0) ∧
    terminal_cost s = 1e-5 * (s.t_market - s.t_center) ^ 2 + 1e-4 * s.width_ticks := by
  constructor
  · simp only [stage_cost, reluR, pow_two, mul_assoc, ge_iff_le, gt_iff_lt]
    norm_num
  · rfl

/-- C4: the dynamics step returns
`[t_market + ln(f)/ln(1.0001), clamp(t_pool + k*(next_t_market - t_pool),
next_t_center - next_w/2, next_t_center + next_w/2), t_center + delta_center,
max(120, w_ticks + delta_width)]` with
`k = 0.2 + 0.75*tanh(2*|next_t_market - t_pool| / max(next_w, 1e-6))`; in
particular the next width is at least `120`. -/
theorem C4_uniswap_dynamics_step (s : UniState) (a : Act) (f : ℝ) (hf : 0 < f) :
    uniswap_dynamics s a f =
      ⟨s.t_market + Real.log f / Real.log 1.0001,
       clampR
         (s.t_pool +
           (0.2 + 0.75 * Real.tanh
             (2 * |s.t_market + Real.log f / Real.log 1.0001 - s.t_pool| /
               max (max 120.0 (s.width_ticks + a.2)) 1e-6)) *
             (s.t_market + Real.log f / Real.log 1.0001 - s.t_pool))
         (s.t_center + a.1 - max 120.0 (s.width_ticks + a.2) / 2)
         (s.t_center + a.1 + max 120.0 (s.width_ticks + a.2) / 2),
       s.t_center + a.1,
       max 120.0 (s.width_ticks + a.2)⟩ ∧
    120.0 ≤ (uniswap_dynamics s a f).width_ticks := by
  constructor
  · have hw : max (s.width_ticks + a.2) (120.0 : ℝ) = max 120.0 (s.width_ticks + a.2) :=
      max_comm _ _
    simp only [uniswap_dynamics, hw, UniState.mk.injEq, mul_div_assoc]
    norm_num
  · unfold uniswap_dynamics
    exact le_max_right _ _

/-- Witness for C4 at `s = [0,0,0,0]`, `a = [0,0]`, `f = 1`. -/
theorem C4_uniswap_dynamics_step_witness :
    (0 : ℝ) < 1 ∧
    (uniswap_dynamics ⟨0, 0, 0, 0⟩ (0, 0) 1 =
      ⟨(0 : ℝ) + Real.log 1 / Real.log 1.0001,
       clampR
         ((0 : ℝ) +
           (0.2 + 0.75 * Real.tanh
             (2 * |(0 : ℝ) + Real.log 1 / Real.log 1.0001 - 0| /
               max (max 120.0 ((0 : ℝ) + 0)) 1e-6)) *
             ((0 : ℝ) + Real.log 1 / Real.log 1.0001 - 0))
         ((0 : ℝ) + 0 - max 120.0 ((0 : ℝ) + 0) / 2)
         ((0 : ℝ) + 0 + max 120.0 ((0 : ℝ) + 0) / 2),
       (0 : ℝ) + 0,
       max 120.0 ((0 : ℝ) + 0)⟩ ∧
    120.0 ≤ (uniswap_dynamics ⟨0, 0, 0, 0⟩ (0, 0) 1).width_ticks) :=
  ⟨by norm_num, C4_uniswap_dynamics_step ⟨0, 0, 0, 0⟩ (0, 0) 1 (by norm_num)⟩

/-- With a single outer sample the softmax weight is identically 1. -/
lemma oneSample_weights (mean : Fin oneSampleConfig.horizon → Act)
    (noises : Fin oneSampleConfig.num_samples → Fin oneSampleConfig.horizon → Act)
    (prms : Fin oneSampleConfig.num_samples_expect → Fin oneSampleConfig.horizon → ℝ)
    (s : UniState) (i : Fin oneSampleConfig.num_samples) :
    mppiWeights oneSampleConfig mean noises prms s i = 1 := by
  have hi : i = 0 := Subsingleton.elim i 0
  subst hi
  unfold mppiWeights
  rw [Fin.sum_univ_one]
  exact div_self (Real.exp_ne_zero _)

/-- With a single outer sample the optimal sequence is that sample's clamped
perturbed sequence. -/
lemma oneSample_optimalSeq (mean : Fin oneSampleConfig.horizon → Act)
    (noises : Fin oneSampleConfig.num_samples → Fin oneSampleConfig.horizon → Act)
    (prms : Fin oneSampleConfig.num_samples_expect → Fin oneSampleConfig.horizon → ℝ)
    (s : UniState) (t : Fin oneSampleConfig.horizon) :
    optimalSeq oneSampleConfig mean noises prms s t =
      perturbedSeqs oneSampleConfig mean noises 0 t := by
  unfold optimalSeq
  rw [Fin.sum_univ_one, Fin.sum_univ_one, oneSample_weights]
  simp

/-- C5: with one outer sample, mean sequence `0` and noise draw `(30, 300)`
(inside the clamp bounds), the softmax-weighted optimal sequence has head
`(30, 300)`; but after the call the stored mean sequence's head is
`(0, 300)` — the deadband write `current_action[0] = 0.0` goes through a
view of the stored tensor, so the stored sequence is NOT the weighted sum
and is NOT left unchanged by the hysteresis. -/
theorem C5_hysteresis_mutates_stored_sequence :
    (S_MPPI.forward oneSampleConfig noiseC5 (S_MPPI.init oneSampleConfig 42) st0).map
        (fun r => r.next.previous_action_seq ⟨0, by decide⟩) = some ((0 : ℝ), (300 : ℝ)) ∧
    forwardOptimalHead oneSampleConfig noiseC5 (S_MPPI.init oneSampleConfig 42) st0 rfl
        (by decide) = (30, 300) ∧
    ((0 : ℝ), (300 : ℝ)) ≠ ((30 : ℝ), (300 : ℝ)) := by
  have hO : forwardOptimalHead oneSampleConfig noiseC5 (S_MPPI.init oneSampleConfig 42)
      st0 rfl (by decide) = (30, 300) := by
    unfold forwardOptimalHead
    rw [oneSample_optimalSeq]
    unfold perturbedSeqs S_MPPI.init clampAct clampR
    norm_num
  refine ⟨?_, hO, by norm_num⟩
  unfold S_MPPI.forward
  rw [dif_pos (show st0.length = 4 from rfl)]
  simp only [Option.map_some']
  simp only [forwardCore]
  simp only [if_true]
  unfold headAct
  rw [dif_pos (by decide : 0 < oneSampleConfig.horizon)]
  rw [oneSample_optimalSeq]
  unfold perturbedSeqs S_MPPI.init clampAct clampR deadband
  norm_num

/-- C7: after a `forward` call from the equilibrium state
`[1000, 1000, 1000, 4000]` with zero noise, `get_top_samples 1` returns a
"trajectory" whose entry at step 1 is the all-zero state (`width_ticks = 0`)
— the persistent `_state_seq_batch` buffer is never filled with the rollout,
which goes to `_state_seq_batch_exp` — while the actual rolled-out
trajectory of that top sample has `width_ticks = 4000` at step 1. -/
theorem C7_top_samples_are_stale :
    (S_MPPI.forward oneSampleConfig noiseZero (S_MPPI.init oneSampleConfig 42) st0).map
        (fun r => (S_MPPI.get_top_samples oneSampleConfig r.next 1).1.map
          (fun f => (f ⟨1, by decide⟩).width_ticks)) = some [0] ∧
    (rolloutSt oneSampleConfig (stFromList st0 rfl)
        (perturbedSeqs oneSampleConfig
          (S_MPPI.init oneSampleConfig 42).previous_action_seq (noiseZero 42 1) 0)
        (chosenParams oneSampleConfig 42 2 0) 1).width_ticks = 4000 ∧
    (0 : ℝ) ≠ 4000 := by
  refine ⟨?_, ?_, by norm_num⟩
  · rfl
  · unfold rolloutSt
    rw [dif_pos (by decide : 0 < oneSampleConfig.horizon)]
    unfold rolloutSt
    rw [show oneSampleConfig.dynamics = uniswap_dynamics from rfl]
    unfold uniswap_dynamics perturbedSeqs S_MPPI.init clampAct clampR
      chosenParams stFromList
    norm_num [max_eq_left]

/-- C8: whenever the head of the weighted-average optimal sequence has
`|delta_center| < 60` and `|delta_width| < 120`, the immediate action
returned by `forward` is exactly `(0, 0)`; each component is zeroed
independently below its own threshold. -/
theorem C8_deadband_zeroes_small_actions (cfg : SMPPIConfig)
    (noiseF : ℕ → ℕ → Fin cfg.num_samples → Fin cfg.horizon → Act)
    (c : SMPPIState cfg) (st : List ℝ) (h4 : st.length = 4)
    (hh : 0 < cfg.horizon) :
    (|(forwardOptimalHead cfg noiseF c st h4 hh).1| < 60 ∧
        |(forwardOptimalHead cfg noiseF c st h4 hh).2| < 120 →
      (S_MPPI.forward cfg noiseF c st).map (fun r => r.current_action) =
        some (0, 0)) ∧
    (|(forwardOptimalHead cfg noiseF c st h4 hh).1| < 60 →
      (S_MPPI.forward cfg noiseF c st).map (fun r => r.current_action.1) =
        some 0) ∧
    (|(forwardOptimalHead cfg noiseF c st h4 hh).2| < 120 →
      (S_MPPI.forward cfg noiseF c st).map (fun r => r.current_action.2) =
        some 0) := by
  have hfwd : S_MPPI.forward cfg noiseF c st =
      some (forwardCore cfg c (noiseF c.seed c.draw)
        (chosenParams cfg c.seed (c.draw + 1)) (stFromList st h4)) := by
    unfold S_MPPI.forward
    rw [dif_pos h4]
  have hact : (forwardCore cfg c (noiseF c.seed c.draw)
      (chosenParams cfg c.seed (c.draw + 1)) (stFromList st h4)).current_action =
      deadband (forwardOptimalHead cfg noiseF c st h4 hh) := by
    simp only [forwardCore, forwardOptimalHead, headAct]
    rw [dif_pos hh]
  refine ⟨fun h => ?_, fun h => ?_, fun h => ?_⟩
  · rw [hfwd]
    simp only [Option.map_some', hact, deadband]
    rw [if_pos h.1, if_pos h.2]
  · rw [hfwd]
    simp only [Option.map_some', hact, deadband]
    rw [if_pos h]
  · rw [hfwd]
    simp only [Option.map_some', hact, deadband]
    rw [if_pos h]

/-- Witness for C8: with one outer sample, zero mean and noise `(30, 100)`
the optimal head is `(30, 100)`, both components below their thresholds, and
the returned immediate action is `(0, 0)`. -/
theorem C8_deadband_zeroes_small_actions_witness :
    |(forwardOptimalHead oneSampleConfig noiseC8 (S_MPPI.init oneSampleConfig 42)
        st0 rfl (by decide)).1| < 60 ∧
    |(forwardOptimalHead oneSampleConfig noiseC8 (S_MPPI.init oneSampleConfig 42)
        st0 rfl (by decide)).2| < 120 ∧
    (S_MPPI.forward oneSampleConfig noiseC8 (S_MPPI.init oneSampleConfig 42) st0).map
        (fun r => r.current_action) = some (0, 0) := by
  have hO : forwardOptimalHead oneSampleConfig noiseC8 (S_MPPI.init oneSampleConfig 42)
      st0 rfl (by decide) = (30, 100) := by
    unfold forwardOptimalHead
    rw [oneSample_optimalSeq]
    unfold perturbedSeqs S_MPPI.init clampAct clampR
    norm_num
  have h1 : |(forwardOptimalHead oneSampleConfig noiseC8
      (S_MPPI.init oneSampleConfig 42) st0 rfl (by decide)).1| < 60 := by
    rw [hO]; norm_num
  have h2 : |(forwardOptimalHead oneSampleConfig noiseC8
      (S_MPPI.init oneSampleConfig 42) st0 rfl (by decide)).2| < 120 := by
    rw [hO]; norm_num
  exact ⟨h1, h2,
    (C8_deadband_zeroes_small_actions oneSampleConfig noiseC8
      (S_MPPI.init oneSampleConfig 42) st0 rfl (by decide)).1 ⟨h1, h2⟩⟩

/-- C9: the only input check in `forward` is the shape assertion.  Every
4-element state list — whatever its values — passes the guard and reaches
the unconditional overwrite of the stored mean sequence (there is no
value-based rejection, hence nothing stops a NaN state in the source),
while any 3-element list is rejected up front, before any state mutation. -/
theorem C9_forward_validates_shape_only (cfg : SMPPIConfig)
    (noiseF : ℕ → ℕ → Fin cfg.num_samples → Fin cfg.horizon → Act)
    (c : SMPPIState cfg) :
    (∀ a b d e : ℝ, S_MPPI.forward cfg noiseF c [a, b, d, e] =
      some (forwardCore cfg c (noiseF c.seed c.draw)
        (chosenParams cfg c.seed (c.draw + 1)) ⟨a, b, d, e⟩)) ∧
    (∀ a b d : ℝ, S_MPPI.forward cfg noiseF c [a, b, d] = none) := by
  constructor
  · intro a b d e
    unfold S_MPPI.forward
    rw [dif_pos (show ([a, b, d, e] : List ℝ).length = 4 from rfl)]
    rfl
  · intro a b d
    unfold S_MPPI.forward
    rw [dif_neg (by norm_num : ¬([a, b, d] : List ℝ).length = 4)]

/-- C10: two controllers freshly constructed with identical seed and
identical constructor parameters produce identical `forward` outputs on an
identical state — the construction and the forward pass are deterministic
functions of the seed, the parameters and the state (all randomness flows
through the seeded RNG stream `noiseF`/generator fields). -/
theorem C10_reproducibility (cfg : SMPPIConfig)
    (noiseF : ℕ → ℕ → Fin cfg.num_samples → Fin cfg.horizon → Act)
    (seed : ℕ) (st : List ℝ) (c1 c2 : SMPPIState cfg)
    (h1 : c1 = S_MPPI.init cfg seed) (h2 : c2 = S_MPPI.init cfg seed) :
    S_MPPI.forward cfg noiseF c1 st = S_MPPI.forward cfg noiseF c2 st := by
  subst h1
  subst h2
  rfl

/-- Witness for C10 at the one-sample configuration, seed 42 and the
equilibrium state. -/
theorem C10_reproducibility_witness :
    S_MPPI.init oneSampleConfig 42 = S_MPPI.init oneSampleConfig 42 ∧
    S_MPPI.forward oneSampleConfig noiseZero (S_MPPI.init oneSampleConfig 42) st0 =
      S_MPPI.forward oneSampleConfig noiseZero (S_MPPI.init oneSampleConfig 42) st0 :=
  ⟨rfl, C10_reproducibility oneSampleConfig noiseZero 42 st0 _ _ rfl rfl⟩

end KineticFlow

end
